import Mathlib

/-!
Verification of the dynamic-topology CLI (`examples/dynamicnet.py`, class
`DynCLI`) of the mininet fork.  The mutable Python state (the CLI's
`nodemap`/`nodelist`, the per-node interface tables `intfs`/`ports`/
`nameToIntf`, the network's kind containers, and the live link media) is
embedded as an explicit `NetState` record threaded through every operation.
Python dicts are insertion-ordered association lists; Python exceptions are
an explicit `Option Exn` result component; calls to the external runtime
that can fail are parameterised by an injected success flag.  Parts of the
mininet library itself (node bookkeeping, `Mininet.addLink`, `Link.delete`)
are not under `src/` and are modelled from the spec where noted.
-/

set_option autoImplicit false
set_option linter.unusedVariables false

namespace DynNet

/-- Insertion-ordered association-list lookup: first binding of the key,
mirroring a Python dict read. -/
def alookup {α β : Type} [DecidableEq α] : List (α × β) → α → Option β
  | [], _ => none
  | (a, b) :: t, k => if a = k then some b else alookup t k

/-- Python dict assignment `d[k] = v`: replace in place when the key is
present (keeping its position), else append. -/
def aset {α β : Type} [DecidableEq α] : List (α × β) → α → β → List (α × β)
  | [], k, v => [(k, v)]
  | (a, b) :: t, k, v => if a = k then (k, v) :: t else (a, b) :: aset t k v

/-- Python dict deletion `del d[k]` (keys are unique, so removing every
binding of the key is the same as removing the one binding). -/
def aerase {α β : Type} [DecidableEq α] : List (α × β) → α → List (α × β)
  | [], _ => []
  | (a, b) :: t, k => if a = k then aerase t k else (a, b) :: aerase t k

/-- Python `list.remove(x)`: drop the first occurrence. -/
def lremove {α : Type} [DecidableEq α] : List α → α → List α
  | [], _ => []
  | a :: t, x => if a = x then t else a :: lremove t x

/-- The three node kinds of the data model (`Host`, `OVSSwitch`,
`RemoteController` in the source). -/
inductive NodeKind : Type
  | host
  | switch
  | controller
  deriving DecidableEq

/-- The kind-name strings used by the command surface. -/
def kindStr : NodeKind → String
  | NodeKind.host => "host"
  | NodeKind.switch => "switch"
  | NodeKind.controller => "controller"

/-- Messages produced through the `error(...)` logging calls of the source. -/
inductive Msg : Type
  | nodeNotExists (n : String)
  | node1NotExists (n : String)
  | node2NotExists (n : String)
  | isKindQ (n ty : String)
  | cleanupFailure (ty n : String)
  | invalidNumArgs
  | invalidType
  | invalidLinkArgs
  | invalidIntfArgs
  deriving DecidableEq

/-- Python exceptions that can propagate out of the translated operations. -/
inductive Exn : Type
  | runtimeErr
  | typeErr
  | nameErr
  | evalErr
  deriving DecidableEq

/-- Runtime calls observable from the engine, used to state ordering
properties (connect medium, tear down medium, stop a node entity). -/
inductive Ev : Type
  | runtimeConnect (n1 n2 : String)
  | mediumDown (lid : Nat)
  | nodeStopped (n : String)
  deriving DecidableEq

/-- Modelled from the spec: the per-node interface bookkeeping of the
mininet `Node` class (not under `src/`), §3 "ordered list of bound
Interfaces" — `intfs` maps port → interface, `ports` maps interface → port,
`nameToIntf` maps interface name → interface.  Interfaces are identified by
numeric ids standing for the Python object identities. -/
structure NodeData : Type where
  kind : NodeKind
  intfs : List (Nat × Nat)
  ports : List (Nat × Nat)
  nameToIntf : List (String × Nat)
  deriving DecidableEq

/-- A node with no bound interfaces. -/
def emptyNode (k : NodeKind) : NodeData := ⟨k, [], [], []⟩

/-- Modelled from the spec: the persistent data of a mininet `Intf` object
(not under `src/`) — its name, owning node, and the weak back-reference to
its Link (§3: "optional Link reference (weak — lookup only)"; it is set at
link creation and never cleared, matching the truthiness test `if link:` in
the source). -/
structure IntfData : Type where
  name : String
  node : String
  link : Option Nat
  deriving DecidableEq

/-- Modelled from the spec: a mininet `Link` object (not under `src/`),
identified by the unordered pair of its interfaces (§3). -/
structure LinkData : Type where
  intf1 : Nat
  intf2 : Nat
  deriving DecidableEq

/-- The whole mutable state of the session: the CLI registry
(`nodemap`/`nodelist`), the network's kind containers (`mn.switches`,
`mn.hosts`, `mn.controllers`), the arena of interface and link objects ever
created, the set of live media, the `error(...)` log, the runtime-call
trace, and a fresh-id counter. -/
structure NetState : Type where
  nodemap : List (String × NodeData)
  nodelist : List String
  switches : List String
  hosts : List String
  controllers : List String
  intfRec : List (Nat × IntfData)
  linkRec : List (Nat × LinkData)
  media : List Nat
  errs : List Msg
  events : List Ev
  nextId : Nat
  deriving DecidableEq

/-- `DynCLI._net_container`: pick the kind container for a type string
(`None` for an unknown type). -/
def netContainer (s : NetState) (ty : String) : Option (List String) :=
  if ty = "switch" then some s.switches
  else if ty = "host" then some s.hosts
  else if ty = "controller" then some s.controllers
  else none

/-- Write back the kind container selected by `ty` after a
`container.remove(node)` that succeeded. -/
def setContainer (s : NetState) (ty : String) (l : List String) : NetState :=
  if ty = "switch" then { s with switches := l }
  else if ty = "host" then { s with hosts := l }
  else if ty = "controller" then { s with controllers := l }
  else s

/-- Owner node of an interface (`intf.node` on the Python object). -/
def intfOwner (s : NetState) (i : Nat) : String :=
  match alookup s.intfRec i with
  | some d => d.node
  | none => ""

/-- Name of an interface (`intf.name` on the Python object). -/
def intfNameOf (s : NetState) (i : Nat) : String :=
  match alookup s.intfRec i with
  | some d => d.name
  | none => ""

/-- Weak link reference of an interface (`intf.link`). -/
def intfLinkOf (s : NetState) (i : Nat) : Option Nat :=
  match alookup s.intfRec i with
  | some d => d.link
  | none => none

/-- Modelled from the spec: `node.intfList()` — the node's bound interfaces
in port order (§3 "ordered list of bound Interfaces"; ports are allocated
increasing, so the stored order of `intfs` is the port order). -/
def intfListOf (s : NetState) (n : String) : List Nat :=
  match alookup s.nodemap n with
  | some nd => nd.intfs.map (fun p => p.2)
  | none => []

/-- Decimal rendering of a port number for interface naming; ports in this
development stay below 10, so a single digit suffices. -/
def natStr (p : Nat) : String := String.mk [Char.ofNat (48 + p % 10)]

/-- Modelled from the spec: deterministic interface naming
(`<node>-eth<port>` in mininet's `Link.intfName`, not under `src/`; §4.3
"named deterministically"). -/
def intfName (n : String) (p : Nat) : String := n ++ "-eth" ++ natStr p

/-- Modelled from the spec: mininet `Node.newPort` (not under `src/`) — the
next free port is one past the largest allocated port, or 0 on a fresh
node. -/
def newPort (nd : NodeData) : Nat :=
  match nd.ports.map (fun p => p.2) with
  | [] => 0
  | ps => ps.foldl max 0 + 1

/-- `DynCLI._check_pair`: both names must be registered; on failure an
error is logged and `False` returned. -/
def checkPair (s : NetState) (n1 n2 : String) : Bool × NetState :=
  if (alookup s.nodemap n1).isNone then
    (false, { s with errs := s.errs ++ [Msg.node1NotExists n1] })
  else if (alookup s.nodemap n2).isNone then
    (false, { s with errs := s.errs ++ [Msg.node2NotExists n2] })
  else (true, s)

/-- `DynCLI._node_deattach_intf`: for a switch the fabric detach
(`node.detach(intf)`) is issued first — a runtime call with no bookkeeping
effect, non-fatal per spec §4.2 — then the three table deletions run inside
`try: ... except: pass`, whose first statement `node.ports[intf]` raises
`KeyError` when the interface is already detached, leaving the tables
untouched. -/
def nodeDeattachIntf (s : NetState) (n : String) (i : Nat) : NetState :=
  match alookup s.nodemap n with
  | none => s
  | some nd =>
    match alookup nd.ports i with
    | none => s
    | some port =>
      let nd2 : NodeData :=
        { nd with intfs := aerase nd.intfs port,
                  ports := aerase nd.ports i,
                  nameToIntf := aerase nd.nameToIntf (intfNameOf s i) }
      { s with nodemap := aset s.nodemap n nd2 }

/-- `DynCLI._node_attach_intf`: a `Host` gets `configDefault()`, an
`OVSSwitch` gets a fabric `attach` — both runtime calls that may fail
(`ok = false` injects the spec §6 `RuntimeError`) — and any other kind
(controllers) falls through both `isinstance` branches and does nothing. -/
def nodeAttachIntf (s : NetState) (n : String) (i : Nat) (ok : Bool) :
    NetState × Option Exn :=
  match alookup s.nodemap n with
  | none => (s, none)
  | some nd =>
    match nd.kind with
    | NodeKind.host => if ok then (s, none) else (s, some Exn.runtimeErr)
    | NodeKind.switch => if ok then (s, none) else (s, some Exn.runtimeErr)
    | NodeKind.controller => (s, none)

/-- `DynCLI._delete_link`: `link.delete()` tears the medium down (a runtime
call, modelled from the spec since `Link.delete` is not under `src/`), then
both endpoints are detached from their owning nodes, `intf1`'s first. -/
def deleteLink (s : NetState) (lid : Nat) : NetState :=
  match alookup s.linkRec lid with
  | none => s
  | some lk =>
    let s1 : NetState :=
      { s with media := lremove s.media lid,
               events := s.events ++ [Ev.mediumDown lid] }
    let s2 := nodeDeattachIntf s1 (intfOwner s1 lk.intf1) lk.intf1
    nodeDeattachIntf s2 (intfOwner s2 lk.intf2) lk.intf2

/-- Modelled from the spec: interface allocation on one endpoint during
link creation (mininet `Intf.__init__`/`Node.addIntf`, not under `src/`) —
a fresh port is chosen, the interface is entered into the node's three
tables, and the interface object records its name, owner, and link. -/
def addIntfTo (s : NetState) (n : String) (iid lid : Nat) : NetState :=
  match alookup s.nodemap n with
  | none => s
  | some nd =>
    let port := newPort nd
    let iname := intfName n port
    let nd2 : NodeData :=
      { nd with intfs := aset nd.intfs port iid,
                ports := aset nd.ports iid port,
                nameToIntf := aset nd.nameToIntf iname iid }
    { s with nodemap := aset s.nodemap n nd2,
             intfRec := s.intfRec ++ [(iid, ⟨iname, n, some lid⟩)] }

/-- Modelled from the spec: `Mininet.addLink` (not under `src/`) — §6
`connectMedium` issues the runtime connect producing the medium and §4.3
allocates a new interface on each node, the first endpoint's first (when
both endpoints are the same node, both interfaces land on it).  Returns the
new link id and the two interface ids. -/
def mnAddLink (s : NetState) (n1 n2 : String) : NetState × Nat × Nat × Nat :=
  let lid := s.nextId
  let i1 := s.nextId + 1
  let i2 := s.nextId + 2
  let s0 : NetState :=
    { s with nextId := s.nextId + 3,
             events := s.events ++ [Ev.runtimeConnect n1 n2],
             linkRec := s.linkRec ++ [(lid, ⟨i1, i2⟩)],
             media := s.media ++ [lid] }
  let s1 := addIntfTo s0 n1 i1 lid
  let s2 := addIntfTo s1 n2 i2 lid
  (s2, lid, i1, i2)

/-- `DynCLI._add_link`: after the pair check, the runtime link is created,
then both interfaces are activated in order; an attach failure propagates
as an exception with the state as mutated so far (the source has no
rollback handler). -/
def addLink (s : NetState) (n1 n2 : String) (ok1 ok2 : Bool) :
    NetState × Option Exn :=
  match checkPair s n1 n2 with
  | (false, sE) => (sE, none)
  | (true, sE) =>
    match mnAddLink sE n1 n2 with
    | (s1, _lid, i1, i2) =>
      match nodeAttachIntf s1 (intfOwner s1 i1) i1 ok1 with
      | (s2, some e) => (s2, some e)
      | (s2, none) => nodeAttachIntf s2 (intfOwner s2 i2) i2 ok2

/-- The cascade loop of `DynCLI._del_node`: over a snapshot of the node's
interface list, every interface with a (truthy) link reference has that
link deleted. -/
def delLinksLoop (s : NetState) : List Nat → NetState
  | [] => s
  | i :: rest =>
    match intfLinkOf s i with
    | some lid => delLinksLoop (deleteLink s lid) rest
    | none => delLinksLoop s rest

/-- `DynCLI._del_node`: name check, kind-container membership check
(`Is <name> a <type>?`), cascade over the interface snapshot, `node.stop()`,
then `container.remove(node)` inside `try: ... except:` — `removeFails`
injects the failure of that removal step (spec §6 runtime calls may fail),
which logs a cleanup-failure message instead of aborting — and finally the
unconditional removal from `nodemap` and `nodelist`.  An unknown type
string would make `node not in container` raise `TypeError`. -/
def delNode (s : NetState) (ty name : String) (removeFails : Bool) :
    NetState × Option Exn :=
  if (alookup s.nodemap name).isNone then
    ({ s with errs := s.errs ++ [Msg.nodeNotExists name] }, none)
  else
    match netContainer s ty with
    | none => (s, some Exn.typeErr)
    | some cont =>
      if name ∈ cont then
        let s1 := delLinksLoop s (intfListOf s name)
        let s2 : NetState := { s1 with events := s1.events ++ [Ev.nodeStopped name] }
        let s3 :=
          if removeFails then
            { s2 with errs := s2.errs ++ [Msg.cleanupFailure ty name] }
          else
            match netContainer s2 ty with
            | some c2 => setContainer s2 ty (lremove c2 name)
            | none => s2
        ({ s3 with nodemap := aerase s3.nodemap name,
                   nodelist := lremove s3.nodelist name }, none)
      else ({ s with errs := s.errs ++ [Msg.isKindQ name ty] }, none)

/-- The scan loop of `DynCLI._del_link`: over a snapshot of the source
node's interface list, every interface with a link whose endpoints are the
source/destination pair (in either orientation) has that link deleted;
with `all = false` the loop breaks after the first match. -/
def delLinkScan (src dst : String) (all : Bool) :
    NetState → List Nat → NetState
  | s, [] => s
  | s, i :: rest =>
    match intfLinkOf s i with
    | none => delLinkScan src dst all s rest
    | some lid =>
      match alookup s.linkRec lid with
      | none => delLinkScan src dst all s rest
      | some lk =>
        let n1 := intfOwner s lk.intf1
        let n2 := intfOwner s lk.intf2
        if (n1 = src ∧ n2 = dst) ∨ (n1 = dst ∧ n2 = src) then
          let s2 := deleteLink s lid
          if all then delLinkScan src dst all s2 rest else s2
        else delLinkScan src dst all s rest

/-- `DynCLI._del_link`: pair check, then the matching scan over `name1`'s
interface list. -/
def delLink (s : NetState) (n1 n2 : String) (all : Bool) : NetState :=
  match checkPair s n1 n2 with
  | (false, sE) => sE
  | (true, sE) => delLinkScan n1 n2 all sE (intfListOf sE n1)

/-- `DynCLI._del_intf`: node check, interface-name check (whose error
branch formats a message with the undefined variable `name` and therefore
raises `NameError` in the source), then detach and a runtime
`intf.delete()`. -/
def delIntf (s : NetState) (nodeName iname : String) : NetState × Option Exn :=
  match alookup s.nodemap nodeName with
  | none => ({ s with errs := s.errs ++ [Msg.nodeNotExists nodeName] }, none)
  | some nd =>
    match alookup nd.nameToIntf iname with
    | none => (s, some Exn.nameErr)
    | some i => (nodeDeattachIntf s nodeName i, none)

/-- Decoded option values: Python booleans, `None`, numeric literals
(kept as their literal text), strings, and the objects bound to names
visible in the scope `eval` runs in. -/
inductive PyVal : Type
  | pybool (b : Bool)
  | pynone
  | pynum (lit : String)
  | pystr (v : String)
  | pyobj (name : String)
  deriving DecidableEq

/-- Split a character list at the first `=`, as Python
`str.partition('=')` does (the remainder may itself contain `=`). -/
def breakAtEq : List Char → List Char × Option (List Char)
  | [] => ([], none)
  | c :: t =>
    if c = '=' then ([], some t)
    else
      match breakAtEq t with
      | (p, r) => (c :: p, r)

/-- `opt, sep, str_val = opt_param.partition('=')`, reduced to the pair the
source actually uses (`str_val` is empty exactly when no `=` is present or
nothing follows it). -/
def partitionEq (t : String) : String × String :=
  match breakAtEq t.data with
  | (p, none) => (⟨p⟩, "")
  | (p, some r) => (⟨p⟩, ⟨r⟩)

/-- Split a character list at the first occurrence of the given
character. -/
def breakAtChar (ch : Char) : List Char → List Char × Option (List Char)
  | [] => ([], none)
  | c :: t =>
    if c = ch then ([], some t)
    else
      match breakAtChar ch t with
      | (p, r) => (c :: p, r)

/-- A nonempty run of decimal digits. -/
def digitsNE (l : List Char) : Bool :=
  !l.isEmpty && l.all Char.isDigit

/-- Drop one optional leading sign. -/
def stripSign : List Char → List Char
  | [] => []
  | c :: t => if c = '-' ∨ c = '+' then t else c :: t

/-- Split at the first exponent marker `e`/`E`. -/
def breakAtExp : List Char → List Char × Option (List Char)
  | [] => ([], none)
  | c :: t =>
    if c = 'e' ∨ c = 'E' then ([], some t)
    else
      match breakAtExp t with
      | (p, r) => (c :: p, r)

/-- A plain integer literal: digits with no leading zero (a lone `0` is
allowed; leading-zero forms are version-dependent octal syntax and are
not claimed either way). -/
def intOk : List Char → Bool
  | [] => false
  | [c] => c.isDigit
  | c :: t => c.isDigit && c != '0' && t.all Char.isDigit

/-- The digit part of a float: digits on at least one side of at most one
dot (leading zeros are allowed in float literals). -/
def floatMantissa (l : List Char) : Bool :=
  match breakAtChar '.' l with
  | (_, none) => false
  | (a, some b) =>
    match breakAtChar '.' b with
    | (_, some _) => false
    | (_, none) =>
      (digitsNE a && (b.isEmpty || digitsNE b)) || (a.isEmpty && digitsNE b)

/-- A decimal numeric literal accepted by Python `eval`: an optional
sign, then an integer or float digit part, optionally followed by a
signed exponent (whose mantissa may be a plain digit run). -/
def isNumLit (s : String) : Bool :=
  match breakAtExp (stripSign s.data) with
  | (m, none) => intOk m || floatMantissa m
  | (m, some e) => (digitsNE m || floatMantissa m) && digitsNE (stripSign e)

/-- A string literal: matching single or double quotes around an interior
free of quote and backslash characters (escape sequences are outside the
modelled vocabulary and are not claimed either way). -/
def isQuoted (s : String) : Bool :=
  match s.data with
  | c :: (d :: t) =>
    (c.toNat = 34 || c.toNat = 39) && ((d :: t).getLastD d).toNat = c.toNat
      && ((d :: t).dropLast.all fun x =>
            x.toNat != 34 && x.toNat != 39 && x.toNat != 92)
  | _ => false

/-- The text inside a quoted literal. -/
def unquote (s : String) : String :=
  ⟨(s.data.drop 1).dropLast⟩

/-- A Python identifier: a letter or underscore, then letters, digits, or
underscores. -/
def isIdent (s : String) : Bool :=
  match s.data with
  | [] => false
  | c :: t =>
    (c.isAlpha || c.toNat = 95)
      && t.all (fun x => x.isAlpha || x.isDigit || x.toNat = 95)

/-- A dotted numeral that no Python version accepts: digits and dots
only, starting with a digit, with at least two dots (e.g. an IP address
`10.0.0.1`) — it tokenises as adjacent number tokens and is a
`SyntaxError` regardless of scope. -/
def isBadDotted (s : String) : Bool :=
  match s.data with
  | [] => false
  | c :: t =>
    c.isDigit && (c :: t).all (fun d => d.isDigit || d == '.')
      && decide (2 ≤ ((c :: t).filter (fun d => d == '.')).length)

/-- The names visible to `eval` inside `_parse_args`: the function's
locals at the decoding point (including the loop-carried `val`), the
module's globals (its imports, classes, and implicit dunders), and the
CPython 2.7 builtins the script runs under (`print` and `exec` are
statement keywords there, not names). -/
def scopeNames : List String :=
  ["self", "cmd", "line", "args", "param", "opt_pos", "opt_param", "opt",
   "sep", "str_val", "val",
   "OptionParser", "LinearTopo", "setLogLevel", "info", "output", "error",
   "Mininet", "CLI", "RemoteController", "Host", "OVSSwitch",
   "dumpNetConnections", "ipAdd", "macColonHex", "Link", "Intf",
   "traceback", "DynCLI", "main",
   "__builtins__", "__doc__", "__file__", "__name__", "__package__",
   "__debug__", "__import__",
   "ArithmeticError", "AssertionError", "AttributeError", "BaseException",
   "BufferError", "BytesWarning", "DeprecationWarning", "EOFError",
   "Ellipsis", "EnvironmentError", "Exception", "FloatingPointError",
   "FutureWarning", "GeneratorExit", "IOError", "ImportError",
   "ImportWarning", "IndentationError", "IndexError", "KeyError",
   "KeyboardInterrupt", "LookupError", "MemoryError", "NameError",
   "NotImplemented", "NotImplementedError", "OSError", "OverflowError",
   "PendingDeprecationWarning", "ReferenceError", "RuntimeError",
   "RuntimeWarning", "StandardError", "StopIteration", "SyntaxError",
   "SyntaxWarning", "SystemError", "SystemExit", "TabError", "TypeError",
   "UnboundLocalError", "UnicodeDecodeError", "UnicodeEncodeError",
   "UnicodeError", "UnicodeTranslateError", "UnicodeWarning",
   "UserWarning", "ValueError", "Warning", "ZeroDivisionError",
   "abs", "all", "any", "apply", "basestring", "bin", "bool", "buffer",
   "bytearray", "bytes", "callable", "chr", "classmethod", "cmp",
   "coerce", "compile", "complex", "copyright", "credits", "delattr",
   "dict", "dir", "divmod", "enumerate", "eval", "execfile", "exit",
   "file", "filter", "float", "format", "frozenset", "getattr",
   "globals", "hasattr", "hash", "help", "hex", "id", "input", "int",
   "intern", "isinstance", "issubclass", "iter", "len", "license",
   "list", "locals", "long", "map", "max", "memoryview", "min", "next",
   "object", "oct", "open", "ord", "pow", "property", "quit", "range",
   "raw_input", "reduce", "reload", "repr", "reversed", "round", "set",
   "setattr", "slice", "sorted", "staticmethod", "str", "sum", "super",
   "tuple", "type", "unichr", "unicode", "vars", "xrange", "zip"]

/-- Python `eval(str_val)` as run inside `_parse_args`: the boolean and
`None` literals, numeric literals, and quoted strings evaluate to
themselves; a name visible in the enclosing scope evaluates to the object
bound to it; an identifier outside that scope raises `NameError` and a
malformed numeral raises `SyntaxError`, both returned as `none`.  Value
expressions beyond a single literal or name (arithmetic, calls,
containers) are outside the option vocabulary modelled here; they take
the failure branch, and the theorems below invoke that branch only on
the two classes whose failure is scope- and version-independent
(`isBadDotted`) or fixed by the script's scope (`isIdent` outside
`scopeNames`). -/
def pyEval (s : String) : Option PyVal :=
  if s = "True" then some (PyVal.pybool true)
  else if s = "False" then some (PyVal.pybool false)
  else if s = "None" then some PyVal.pynone
  else if isNumLit s then some (PyVal.pynum s)
  else if isQuoted s then some (PyVal.pystr (unquote s))
  else if scopeNames.contains s then some (PyVal.pyobj s)
  else none

/-- One option token of `DynCLI._parse_args`: `opt, sep, str_val =
opt_param.partition('=')`; a nonempty `str_val` is passed to `eval` (whose
failure propagates, hence `none`), an empty one yields `True`. -/
def decodeToken (t : String) : Option (String × PyVal) :=
  match partitionEq t with
  | (opt, v) =>
    if v = "" then some (opt, PyVal.pybool true)
    else
      match pyEval v with
      | some pv => some (opt, pv)
      | none => none

/-- Follows the spec's words, for comparison with `decodeToken`: "if a
value is present it is decoded as the most specific scalar type it can be
parsed as (boolean literal, number, else left as a string); if no `=` is
present the option is treated as a boolean flag set to true" — decoding
never fails. -/
def decodeTokenSpec (t : String) : String × PyVal :=
  match partitionEq t with
  | (opt, v) =>
    if v = "" then (opt, PyVal.pybool true)
    else if v = "True" then (opt, PyVal.pybool true)
    else if v = "False" then (opt, PyVal.pybool false)
    else if isNumLit v then (opt, PyVal.pynum v)
    else (opt, PyVal.pystr v)

/-- The option loop of `DynCLI._parse_args`: decode each token into the
`param` dict in order; the first `eval` failure aborts the whole parse. -/
def buildParam : List String → List (String × PyVal) →
    Option (List (String × PyVal))
  | [], acc => some acc
  | t :: rest, acc =>
    match decodeToken t with
    | none => none
    | some (k, v) => buildParam rest (aset acc k v)

/-- The valid component types of the command surface. -/
def validTypes : List String := ["switch", "host", "controller", "intf", "link"]

/-- Result of `DynCLI._parse_args`: a validation error (logged, command
dropped), a propagated exception from `eval`, or the argument list with
the decoded option dict. -/
inductive ParseOut : Type
  | perr (m : Msg)
  | praise (e : Exn)
  | pok (args : List String) (param : List (String × PyVal))
  deriving DecidableEq

/-- `DynCLI._parse_args` after `line.split()`: the arity and type checks,
then the option loop starting at position 3 for `link`/`intf` and 2
otherwise. -/
def parseArgsTokens (args : List String) : ParseOut :=
  let a0 := args.headD ""
  if args.length < 2 then ParseOut.perr Msg.invalidNumArgs
  else if !(validTypes.contains a0) then ParseOut.perr Msg.invalidType
  else if a0 = "link" && args.length < 3 then ParseOut.perr Msg.invalidLinkArgs
  else if a0 = "intf" && args.length < 3 then ParseOut.perr Msg.invalidIntfArgs
  else
    let optPos := if a0 = "link" || a0 = "intf" then 3 else 2
    match buildParam (args.drop optPos) [] with
    | none => ParseOut.praise Exn.evalErr
    | some param => ParseOut.pok args param

/-- `DynCLI.do_del` on the tokenised line: parse, then dispatch — the
`link` branch calls `_del_link(args[1], args[2])`, leaving its `all`
parameter at its default `True` and discarding the parsed options; the
`intf` branch calls `_del_intf`; everything else is a node deletion of the
given type.  `removeFails` is threaded to the node-deletion path's
injected removal-step failure. -/
def doDel (s : NetState) (args : List String) (removeFails : Bool) :
    NetState × Option Exn :=
  match parseArgsTokens args with
  | ParseOut.praise e => (s, some e)
  | ParseOut.perr m => ({ s with errs := s.errs ++ [m] }, none)
  | ParseOut.pok as _param =>
    match as with
    | a0 :: a1 :: rest =>
      if a0 = "link" then
        match rest with
        | a2 :: _ => (delLink s a1 a2 true, none)
        | [] => (s, none)
      else if a0 = "intf" then
        match rest with
        | a2 :: _ => delIntf s a1 a2
        | [] => (s, none)
      else delNode s a0 a1 removeFails
    | _ => (s, none)

/-! ### State families used by the theorems -/

/-- A fresh session holding one registered node with no interfaces. -/
def mkSingleState (a : String) (ka : NodeKind) : NetState :=
  { nodemap := [(a, emptyNode ka)], nodelist := [a],
    switches := if ka = NodeKind.switch then [a] else [],
    hosts := if ka = NodeKind.host then [a] else [],
    controllers := if ka = NodeKind.controller then [a] else [],
    intfRec := [], linkRec := [], media := [], errs := [], events := [],
    nextId := 0 }

/-- A fresh session holding two registered nodes with no interfaces. -/
def mkPairState (a b : String) (ka kb : NodeKind) : NetState :=
  { nodemap := [(a, emptyNode ka), (b, emptyNode kb)], nodelist := [a, b],
    switches := (if ka = NodeKind.switch then [a] else []) ++
                (if kb = NodeKind.switch then [b] else []),
    hosts := (if ka = NodeKind.host then [a] else []) ++
             (if kb = NodeKind.host then [b] else []),
    controllers := (if ka = NodeKind.controller then [a] else []) ++
                   (if kb = NodeKind.controller then [b] else []),
    intfRec := [], linkRec := [], media := [], errs := [], events := [],
    nextId := 0 }

/-- A session with three registered nodes where node `a` has two active
links: link 0 to `b` (interfaces 1 on `a`, 2 on `b`) and link 3 to `c`
(interfaces 4 on `a`, 5 on `c`).  This is exactly the state produced by
two successful `addLink` calls on fresh nodes, written out. -/
def mk2LinkState (a b c : String) (ka kb kc : NodeKind) : NetState :=
  { nodemap :=
      [(a, ⟨ka, [(0, 1), (1, 4)], [(1, 0), (4, 1)],
            [(intfName a 0, 1), (intfName a 1, 4)]⟩),
       (b, ⟨kb, [(0, 2)], [(2, 0)], [(intfName b 0, 2)]⟩),
       (c, ⟨kc, [(0, 5)], [(5, 0)], [(intfName c 0, 5)]⟩)],
    nodelist := [a, b, c],
    switches := (if ka = NodeKind.switch then [a] else []) ++
                (if kb = NodeKind.switch then [b] else []) ++
                (if kc = NodeKind.switch then [c] else []),
    hosts := (if ka = NodeKind.host then [a] else []) ++
             (if kb = NodeKind.host then [b] else []) ++
             (if kc = NodeKind.host then [c] else []),
    controllers := (if ka = NodeKind.controller then [a] else []) ++
                   (if kb = NodeKind.controller then [b] else []) ++
                   (if kc = NodeKind.controller then [c] else []),
    intfRec := [(1, ⟨intfName a 0, a, some 0⟩), (2, ⟨intfName b 0, b, some 0⟩),
                (4, ⟨intfName a 1, a, some 3⟩), (5, ⟨intfName c 0, c, some 3⟩)],
    linkRec := [(0, ⟨1, 2⟩), (3, ⟨4, 5⟩)],
    media := [0, 3], errs := [], events := [], nextId := 6 }

/-- A session with two registered nodes joined by two parallel links:
link 0 (interfaces 1 on `a`, 2 on `b`) and link 3 (interfaces 4 on `a`,
5 on `b`), the state produced by two successful `addLink a b` calls. -/
def mkParallelState (a b : String) (ka kb : NodeKind) : NetState :=
  { nodemap :=
      [(a, ⟨ka, [(0, 1), (1, 4)], [(1, 0), (4, 1)],
            [(intfName a 0, 1), (intfName a 1, 4)]⟩),
       (b, ⟨kb, [(0, 2), (1, 5)], [(2, 0), (5, 1)],
            [(intfName b 0, 2), (intfName b 1, 5)]⟩)],
    nodelist := [a, b],
    switches := (if ka = NodeKind.switch then [a] else []) ++
                (if kb = NodeKind.switch then [b] else []),
    hosts := (if ka = NodeKind.host then [a] else []) ++
             (if kb = NodeKind.host then [b] else []),
    controllers := (if ka = NodeKind.controller then [a] else []) ++
                   (if kb = NodeKind.controller then [b] else []),
    intfRec := [(1, ⟨intfName a 0, a, some 0⟩), (2, ⟨intfName b 0, b, some 0⟩),
                (4, ⟨intfName a 1, a, some 3⟩), (5, ⟨intfName b 1, b, some 3⟩)],
    linkRec := [(0, ⟨1, 2⟩), (3, ⟨4, 5⟩)],
    media := [0, 3], errs := [], events := [], nextId := 6 }

/-! ### Association-list lemmas -/

theorem alookup_aset_self {α β : Type} [DecidableEq α]
    (l : List (α × β)) (k : α) (v : β) : alookup (aset l k v) k = some v := by
  induction l with
  | nil => simp [aset, alookup]
  | cons p t ih =>
    obtain ⟨a, b⟩ := p
    by_cases h : a = k
    · simp [aset, alookup, h]
    · simp [aset, alookup, h, ih]

theorem alookup_aerase_self {α β : Type} [DecidableEq α]
    (l : List (α × β)) (k : α) : alookup (aerase l k) k = none := by
  induction l with
  | nil => simp [aerase, alookup]
  | cons p t ih =>
    obtain ⟨a, b⟩ := p
    by_cases h : a = k
    · simp [aerase, h, ih]
    · simp [aerase, alookup, h, ih]

theorem strApp_ne (a : String) {x y : String} (h : ¬ x = y) :
    ¬ a ++ x = a ++ y := by
  intro he
  apply h
  obtain ⟨la⟩ := a
  obtain ⟨lx⟩ := x
  obtain ⟨ly⟩ := y
  have hd : la ++ lx = la ++ ly := congrArg String.data he
  exact congrArg String.mk (List.append_cancel_left hd)

theorem intfName_zero_one (n : String) : ¬ intfName n 0 = intfName n 1 :=
  strApp_ne (n ++ "-eth") (by decide)

theorem intfName_one_zero (n : String) : ¬ intfName n 1 = intfName n 0 :=
  strApp_ne (n ++ "-eth") (by decide)

/-! ### Claim theorems -/

/-- C7: For every node (of any kind, including Switch) and every
interface, calling detach twice in a row is equivalent to calling it once:
the second detach of an already-detached interface is a no-op that does
not raise an error (the operation is total) and does not further modify
the node's interface, port, or name tables (the state is unchanged). -/
theorem detach_idempotent (s : NetState) (n : String) (i : Nat) :
    nodeDeattachIntf (nodeDeattachIntf s n i) n i = nodeDeattachIntf s n i := by
  cases h1 : alookup s.nodemap n with
  | none => simp [nodeDeattachIntf, h1]
  | some nd =>
    cases h2 : alookup nd.ports i with
    | none => simp [nodeDeattachIntf, h1, h2]
    | some port =>
      simp [nodeDeattachIntf, h1, h2, alookup_aset_self, alookup_aerase_self]

/-- C4 counterexample: attaching an interface to a registered Controller
node does not fail — it silently succeeds and leaves the state unchanged,
even when the runtime would be unable to perform any attach work (`ok =
false` is irrelevant because no runtime call is issued), contradicting the
claim that it fails with `UnsupportedOperation`. -/
theorem controller_attach_silent_cex :
    nodeAttachIntf (mkSingleState "c0" NodeKind.controller) "c0" 7 false
      = (mkSingleState "c0" NodeKind.controller, none) := by
  decide

/-- C4 (amended): For every node of kind Controller and every interface,
`InterfaceBinder.attach` (`_node_attach_intf`) is a silent no-op: it falls
through both `isinstance` branches of the source, issues no runtime call
(so it cannot fail regardless of the runtime's disposition `ok`), raises
no error, and returns the state unchanged. -/
theorem controller_attach_noop (s : NetState) (n : String) (i : Nat)
    (ok : Bool) (nd : NodeData) (h : alookup s.nodemap n = some nd)
    (hk : nd.kind = NodeKind.controller) :
    nodeAttachIntf s n i ok = (s, none) := by
  simp [nodeAttachIntf, h, hk]

/-- Witness for C4 (amended) at a concrete controller node. -/
theorem controller_attach_noop_witness :
    nodeAttachIntf (mkSingleState "c1" NodeKind.controller) "c1" 3 true
      = (mkSingleState "c1" NodeKind.controller, none) :=
  controller_attach_noop _ _ 3 true (emptyNode NodeKind.controller)
    (by decide) (by decide)

/-- C9: For every registered node whose kind matches the requested kind,
`delNode` removes the node's name from both the name mapping and the
ordered node list, returning normally (no exception) whether or not the
runtime removal step fails; a failure of that step is logged as the
cleanup-failure warning (and is the only message logged) rather than
aborting, so after `delNode` returns the registry never references the
node. -/
theorem delNode_cleanup_failure (a : String) (ka : NodeKind) (rf : Bool) :
    (delNode (mkSingleState a ka) (kindStr ka) a rf).2 = none
    ∧ alookup (delNode (mkSingleState a ka) (kindStr ka) a rf).1.nodemap a = none
    ∧ a ∉ (delNode (mkSingleState a ka) (kindStr ka) a rf).1.nodelist
    ∧ (delNode (mkSingleState a ka) (kindStr ka) a rf).1.errs
        = (if rf then [Msg.cleanupFailure (kindStr ka) a] else []) := by
  cases ka <;> cases rf <;>
    simp [delNode, mkSingleState, kindStr, netContainer, setContainer,
          delLinksLoop, intfListOf, emptyNode, alookup, aerase, lremove]

/-- C3 counterexample: a self-link request on a registered host is not
rejected — `_add_link "h1" "h1"` completes without any error, the runtime
connect call is issued, and two interfaces are created on `h1`,
contradicting the claim that it fails with `InvalidLink` before any
runtime call with no interfaces created. -/
theorem addLink_self_cex :
    (addLink (mkSingleState "h1" NodeKind.host) "h1" "h1" true true).2 = none
    ∧ Ev.runtimeConnect "h1" "h1"
        ∈ (addLink (mkSingleState "h1" NodeKind.host) "h1" "h1" true true).1.events
    ∧ ((alookup (addLink (mkSingleState "h1" NodeKind.host) "h1" "h1"
          true true).1.nodemap "h1").map (fun nd => nd.intfs.length))
        = some 2 := by
  decide

/-- C3 (amended): For every registered node A, `addLink(A, A)` is not
rejected: `_check_pair` only checks that both names are registered, so the
self-link request proceeds — the runtime connect call is issued, two fresh
interfaces are created on A (ports 0 and 1), and the operation completes
without error. -/
theorem addLink_self_not_rejected (a : String) (ka : NodeKind) :
    (addLink (mkSingleState a ka) a a true true).2 = none
    ∧ (addLink (mkSingleState a ka) a a true true).1.events
        = [Ev.runtimeConnect a a]
    ∧ alookup (addLink (mkSingleState a ka) a a true true).1.nodemap a
        = some ⟨ka, [(0, 1), (1, 2)], [(1, 0), (2, 1)],
                [(intfName a 0, 1), (intfName a 1, 2)]⟩ := by
  cases ka <;>
    simp [addLink, mkSingleState, checkPair, mnAddLink, addIntfTo, newPort,
          nodeAttachIntf, intfOwner, alookup, aset, emptyNode,
          intfName_zero_one, intfName_one_zero]

/-- C2 counterexample: when the attach step fails on the second endpoint
of `addLink("h1", "s1")`, the partially created link is not rolled back —
the original error is surfaced, but the medium stays up (link 0 still in
`media`) and both newly allocated interfaces are still present in the two
nodes' tables, contradicting the claimed detach/teardown rollback. -/
theorem addLink_attach_fail_cex :
    ((addLink (mkPairState "h1" "s1" NodeKind.host NodeKind.switch)
        "h1" "s1" true false).2 = some Exn.runtimeErr)
    ∧ (addLink (mkPairState "h1" "s1" NodeKind.host NodeKind.switch)
        "h1" "s1" true false).1.media = [0]
    ∧ ((alookup (addLink (mkPairState "h1" "s1" NodeKind.host NodeKind.switch)
        "h1" "s1" true false).1.nodemap "h1").map (fun nd => nd.ports))
        = some [(1, 0)]
    ∧ ((alookup (addLink (mkPairState "h1" "s1" NodeKind.host NodeKind.switch)
        "h1" "s1" true false).1.nodemap "s1").map (fun nd => nd.ports))
        = some [(2, 0)] := by
  decide

/-- C2 (amended): For every `addLink(node1, node2)` call in which the
attach step fails on either endpoint — the first (kind permitting a
runtime attach, whatever the second attach would have done) or the second
— the partially created link is NOT rolled back: the attach exception
propagates to the caller (the original error is surfaced), but both newly
allocated interfaces remain in the nodes' tables and the medium remains
up — the source has no rollback handler. -/
theorem addLink_attach_fail_no_rollback (a b : String) (ka kb : NodeKind)
    (ok2 : Bool) (hab : ¬ a = b) :
    (¬ ka = NodeKind.controller →
      ((addLink (mkPairState a b ka kb) a b false ok2).2
          = some Exn.runtimeErr)
      ∧ (addLink (mkPairState a b ka kb) a b false ok2).1.media = [0]
      ∧ alookup (addLink (mkPairState a b ka kb) a b false ok2).1.nodemap a
          = some ⟨ka, [(0, 1)], [(1, 0)], [(intfName a 0, 1)]⟩
      ∧ alookup (addLink (mkPairState a b ka kb) a b false ok2).1.nodemap b
          = some ⟨kb, [(0, 2)], [(2, 0)], [(intfName b 0, 2)]⟩)
    ∧ (¬ kb = NodeKind.controller →
      ((addLink (mkPairState a b ka kb) a b true false).2
          = some Exn.runtimeErr)
      ∧ (addLink (mkPairState a b ka kb) a b true false).1.media = [0]
      ∧ alookup (addLink (mkPairState a b ka kb) a b true false).1.nodemap a
          = some ⟨ka, [(0, 1)], [(1, 0)], [(intfName a 0, 1)]⟩
      ∧ alookup (addLink (mkPairState a b ka kb) a b true false).1.nodemap b
          = some ⟨kb, [(0, 2)], [(2, 0)], [(intfName b 0, 2)]⟩) := by
  constructor
  · intro hka
    cases ka with
    | controller => exact absurd rfl hka
    | host =>
      simp [addLink, mkPairState, checkPair, mnAddLink, addIntfTo, newPort,
            nodeAttachIntf, intfOwner, alookup, aset, emptyNode,
            hab, Ne.symm hab]
    | switch =>
      simp [addLink, mkPairState, checkPair, mnAddLink, addIntfTo, newPort,
            nodeAttachIntf, intfOwner, alookup, aset, emptyNode,
            hab, Ne.symm hab]
  · intro hkb
    cases kb with
    | controller => exact absurd rfl hkb
    | host =>
      cases ka <;>
        simp [addLink, mkPairState, checkPair, mnAddLink, addIntfTo, newPort,
              nodeAttachIntf, intfOwner, alookup, aset, emptyNode,
              hab, Ne.symm hab]
    | switch =>
      cases ka <;>
        simp [addLink, mkPairState, checkPair, mnAddLink, addIntfTo, newPort,
              nodeAttachIntf, intfOwner, alookup, aset, emptyNode,
              hab, Ne.symm hab]

/-- Witness for C2 (amended) at host `"h2"` and switch `"s2"`, covering
both the first-endpoint-failure and the second-endpoint-failure cases. -/
theorem addLink_attach_fail_no_rollback_witness :
    (¬ ("h2" : String) = "s2")
    ∧ ((¬ NodeKind.host = NodeKind.controller →
        ((addLink (mkPairState "h2" "s2" NodeKind.host NodeKind.switch)
            "h2" "s2" false false).2 = some Exn.runtimeErr)
        ∧ (addLink (mkPairState "h2" "s2" NodeKind.host NodeKind.switch)
            "h2" "s2" false false).1.media = [0]
        ∧ alookup (addLink (mkPairState "h2" "s2" NodeKind.host
            NodeKind.switch) "h2" "s2" false false).1.nodemap "h2"
          = some ⟨NodeKind.host, [(0, 1)], [(1, 0)], [(intfName "h2" 0, 1)]⟩
        ∧ alookup (addLink (mkPairState "h2" "s2" NodeKind.host
            NodeKind.switch) "h2" "s2" false false).1.nodemap "s2"
          = some ⟨NodeKind.switch, [(0, 2)], [(2, 0)],
                  [(intfName "s2" 0, 2)]⟩)
       ∧ (¬ NodeKind.switch = NodeKind.controller →
        ((addLink (mkPairState "h2" "s2" NodeKind.host NodeKind.switch)
            "h2" "s2" true false).2 = some Exn.runtimeErr)
        ∧ (addLink (mkPairState "h2" "s2" NodeKind.host NodeKind.switch)
            "h2" "s2" true false).1.media = [0]
        ∧ alookup (addLink (mkPairState "h2" "s2" NodeKind.host
            NodeKind.switch) "h2" "s2" true false).1.nodemap "h2"
          = some ⟨NodeKind.host, [(0, 1)], [(1, 0)], [(intfName "h2" 0, 1)]⟩
        ∧ alookup (addLink (mkPairState "h2" "s2" NodeKind.host
            NodeKind.switch) "h2" "s2" true false).1.nodemap "s2"
          = some ⟨NodeKind.switch, [(0, 2)], [(2, 0)],
                  [(intfName "s2" 0, 2)]⟩)) :=
  ⟨by decide,
   addLink_attach_fail_no_rollback "h2" "s2" NodeKind.host NodeKind.switch
     false (by decide)⟩

/-- C6: For every pair of distinct registered nodes with no pre-existing
link between them, `addLink(A, B)` (which succeeds) followed by
`delLink(A, B)` restores the node registry — the name mapping with both
nodes' interface, port, and name-to-interface tables, and the ordered node
list — and the set of live media to exactly their state before the
`addLink`. -/
theorem addLink_delLink_roundtrip (a b : String) (ka kb : NodeKind)
    (hab : ¬ a = b) :
    ((addLink (mkPairState a b ka kb) a b true true).2 = none)
    ∧ (delLink (addLink (mkPairState a b ka kb) a b true true).1 a b
        true).nodemap = (mkPairState a b ka kb).nodemap
    ∧ (delLink (addLink (mkPairState a b ka kb) a b true true).1 a b
        true).nodelist = (mkPairState a b ka kb).nodelist
    ∧ (delLink (addLink (mkPairState a b ka kb) a b true true).1 a b
        true).media = (mkPairState a b ka kb).media := by
  cases ka <;> cases kb <;>
    simp [addLink, mkPairState, checkPair, mnAddLink, addIntfTo, newPort,
          nodeAttachIntf, intfOwner, intfNameOf, intfLinkOf, alookup, aset,
          aerase, lremove, emptyNode, delLink, delLinkScan, intfListOf,
          deleteLink, nodeDeattachIntf, delLinksLoop, hab, Ne.symm hab]

/-- Witness for C6 at a concrete host/switch pair. -/
theorem addLink_delLink_roundtrip_witness :
    (¬ ("h3" : String) = "s3")
    ∧ (((addLink (mkPairState "h3" "s3" NodeKind.host NodeKind.switch)
          "h3" "s3" true true).2 = none)
       ∧ (delLink (addLink (mkPairState "h3" "s3" NodeKind.host
            NodeKind.switch) "h3" "s3" true true).1 "h3" "s3" true).nodemap
          = (mkPairState "h3" "s3" NodeKind.host NodeKind.switch).nodemap
       ∧ (delLink (addLink (mkPairState "h3" "s3" NodeKind.host
            NodeKind.switch) "h3" "s3" true true).1 "h3" "s3" true).nodelist
          = (mkPairState "h3" "s3" NodeKind.host NodeKind.switch).nodelist
       ∧ (delLink (addLink (mkPairState "h3" "s3" NodeKind.host
            NodeKind.switch) "h3" "s3" true true).1 "h3" "s3" true).media
          = (mkPairState "h3" "s3" NodeKind.host NodeKind.switch).media) :=
  ⟨by decide,
   addLink_delLink_roundtrip "h3" "s3" NodeKind.host NodeKind.switch
     (by decide)⟩

/-- C5: For every pair of distinct registered nodes A and B joined by two
parallel links (link 0 through A's first interface, link 3 through its
second), `delLink(A, B, selectAll := false)` destroys exactly one link —
the first match in A's interface-list iteration order, link 0 — leaving
link 3 and its two interfaces in place; the match works in either
orientation (`delLink(B, A, false)` also destroys link 0); and
`delLink(A, B, selectAll := true)` destroys both links, emptying both
nodes' interface tables. -/
theorem delLink_parallel (a b : String) (ka kb : NodeKind) (hab : ¬ a = b) :
    (delLink (mkParallelState a b ka kb) a b false).media = [3]
    ∧ alookup (delLink (mkParallelState a b ka kb) a b false).nodemap a
        = some ⟨ka, [(1, 4)], [(4, 1)], [(intfName a 1, 4)]⟩
    ∧ alookup (delLink (mkParallelState a b ka kb) a b false).nodemap b
        = some ⟨kb, [(1, 5)], [(5, 1)], [(intfName b 1, 5)]⟩
    ∧ (delLink (mkParallelState a b ka kb) b a false).media = [3]
    ∧ (delLink (mkParallelState a b ka kb) a b true).media = []
    ∧ alookup (delLink (mkParallelState a b ka kb) a b true).nodemap a
        = some (emptyNode ka)
    ∧ alookup (delLink (mkParallelState a b ka kb) a b true).nodemap b
        = some (emptyNode kb) := by
  simp [delLink, mkParallelState, checkPair, delLinkScan, intfListOf,
        intfLinkOf, intfOwner, intfNameOf, deleteLink, nodeDeattachIntf,
        alookup, aset, aerase, lremove, emptyNode, hab, Ne.symm hab,
        intfName_zero_one, intfName_one_zero]

/-- Witness for C5 at a concrete host/switch pair. -/
theorem delLink_parallel_witness :
    (¬ ("h4" : String) = "s4")
    ∧ ((delLink (mkParallelState "h4" "s4" NodeKind.host NodeKind.switch)
          "h4" "s4" false).media = [3]
       ∧ alookup (delLink (mkParallelState "h4" "s4" NodeKind.host
            NodeKind.switch) "h4" "s4" false).nodemap "h4"
          = some ⟨NodeKind.host, [(1, 4)], [(4, 1)], [(intfName "h4" 1, 4)]⟩
       ∧ alookup (delLink (mkParallelState "h4" "s4" NodeKind.host
            NodeKind.switch) "h4" "s4" false).nodemap "s4"
          = some ⟨NodeKind.switch, [(1, 5)], [(5, 1)], [(intfName "s4" 1, 5)]⟩
       ∧ (delLink (mkParallelState "h4" "s4" NodeKind.host NodeKind.switch)
            "s4" "h4" false).media = [3]
       ∧ (delLink (mkParallelState "h4" "s4" NodeKind.host NodeKind.switch)
            "h4" "s4" true).media = []
       ∧ alookup (delLink (mkParallelState "h4" "s4" NodeKind.host
            NodeKind.switch) "h4" "s4" true).nodemap "h4"
          = some (emptyNode NodeKind.host)
       ∧ alookup (delLink (mkParallelState "h4" "s4" NodeKind.host
            NodeKind.switch) "h4" "s4" true).nodemap "s4"
          = some (emptyNode NodeKind.switch)) :=
  ⟨by decide,
   delLink_parallel "h4" "s4" NodeKind.host NodeKind.switch (by decide)⟩

theorem mem_ite_singleton_eq_false {α : Type} [DecidableEq α]
    (a b : α) (P : Prop) [Decidable P] (h : ¬ a = b) :
    (a ∈ (if P then [b] else [])) = False := by
  by_cases hp : P <;> simp [hp, h]

/-- C1: For every node A registered with two active links to distinct
registered nodes B and C, `delNode` on A (with the matching kind) destroys
both links and removes both the A-side and the far-side interfaces from
the respective nodes' tables, with both medium teardowns happening before
A's node entity is stopped (event order); afterwards looking A up in the
registry fails while B and C remain registered with empty interface
tables. -/
theorem delNode_cascade_two_links (a b c : String) (ka kb kc : NodeKind)
    (hab : ¬ a = b) (hac : ¬ a = c) (hbc : ¬ b = c) :
    ((delNode (mk2LinkState a b c ka kb kc) (kindStr ka) a false).2 = none)
    ∧ (delNode (mk2LinkState a b c ka kb kc) (kindStr ka) a
        false).1.media = []
    ∧ alookup (delNode (mk2LinkState a b c ka kb kc) (kindStr ka) a
        false).1.nodemap a = none
    ∧ a ∉ (delNode (mk2LinkState a b c ka kb kc) (kindStr ka) a
        false).1.nodelist
    ∧ alookup (delNode (mk2LinkState a b c ka kb kc) (kindStr ka) a
        false).1.nodemap b = some (emptyNode kb)
    ∧ alookup (delNode (mk2LinkState a b c ka kb kc) (kindStr ka) a
        false).1.nodemap c = some (emptyNode kc)
    ∧ b ∈ (delNode (mk2LinkState a b c ka kb kc) (kindStr ka) a
        false).1.nodelist
    ∧ c ∈ (delNode (mk2LinkState a b c ka kb kc) (kindStr ka) a
        false).1.nodelist
    ∧ (delNode (mk2LinkState a b c ka kb kc) (kindStr ka) a
        false).1.events
        = [Ev.mediumDown 0, Ev.mediumDown 3, Ev.nodeStopped a] := by
  cases ka <;>
    simp [delNode, mk2LinkState, kindStr, netContainer, setContainer,
          delLinksLoop, intfListOf, intfLinkOf, intfOwner, intfNameOf,
          deleteLink, nodeDeattachIntf, alookup, aset, aerase, lremove,
          emptyNode, hab, hac, hbc, Ne.symm hab, Ne.symm hac, Ne.symm hbc,
          intfName_zero_one, intfName_one_zero,
          mem_ite_singleton_eq_false]

/-- Witness for C1: switch `"sw"` linked to hosts `"hA"` and `"hB"`. -/
theorem delNode_cascade_two_links_witness :
    (¬ ("sw" : String) = "hA") ∧ (¬ ("sw" : String) = "hB")
    ∧ (¬ ("hA" : String) = "hB")
    ∧ (((delNode (mk2LinkState "sw" "hA" "hB" NodeKind.switch NodeKind.host
          NodeKind.host) (kindStr NodeKind.switch) "sw" false).2 = none)
       ∧ (delNode (mk2LinkState "sw" "hA" "hB" NodeKind.switch NodeKind.host
            NodeKind.host) (kindStr NodeKind.switch) "sw" false).1.media = []
       ∧ alookup (delNode (mk2LinkState "sw" "hA" "hB" NodeKind.switch
            NodeKind.host NodeKind.host) (kindStr NodeKind.switch) "sw"
            false).1.nodemap "sw" = none
       ∧ "sw" ∉ (delNode (mk2LinkState "sw" "hA" "hB" NodeKind.switch
            NodeKind.host NodeKind.host) (kindStr NodeKind.switch) "sw"
            false).1.nodelist
       ∧ alookup (delNode (mk2LinkState "sw" "hA" "hB" NodeKind.switch
            NodeKind.host NodeKind.host) (kindStr NodeKind.switch) "sw"
            false).1.nodemap "hA" = some (emptyNode NodeKind.host)
       ∧ alookup (delNode (mk2LinkState "sw" "hA" "hB" NodeKind.switch
            NodeKind.host NodeKind.host) (kindStr NodeKind.switch) "sw"
            false).1.nodemap "hB" = some (emptyNode NodeKind.host)
       ∧ "hA" ∈ (delNode (mk2LinkState "sw" "hA" "hB" NodeKind.switch
            NodeKind.host NodeKind.host) (kindStr NodeKind.switch) "sw"
            false).1.nodelist
       ∧ "hB" ∈ (delNode (mk2LinkState "sw" "hA" "hB" NodeKind.switch
            NodeKind.host NodeKind.host) (kindStr NodeKind.switch) "sw"
            false).1.nodelist
       ∧ (delNode (mk2LinkState "sw" "hA" "hB" NodeKind.switch NodeKind.host
            NodeKind.host) (kindStr NodeKind.switch) "sw" false).1.events
          = [Ev.mediumDown 0, Ev.mediumDown 3, Ev.nodeStopped "sw"]) :=
  ⟨by decide, by decide, by decide,
   delNode_cascade_two_links "sw" "hA" "hB" NodeKind.switch NodeKind.host
     NodeKind.host (by decide) (by decide) (by decide)⟩

/-- C8 counterexample: the source decodes values with `eval`, which
raises `NameError` on the out-of-scope word `foo` and `SyntaxError` on
the dotted numeral `10.0.0.1` instead of leaving them as strings —
decoding fails (and a whole command carrying such a token fails to
parse), contradicting the claim that decoding never fails and falls back
to the original string.  The spec-faithful decoder, in contrast, returns
the strings. -/
theorem option_decode_cex :
    decodeToken "ip=foo" = none
    ∧ decodeToken "ip=10.0.0.1" = none
    ∧ parseArgsTokens ["host", "h1", "ip=foo"] = ParseOut.praise Exn.evalErr
    ∧ decodeTokenSpec "ip=foo" = ("ip", PyVal.pystr "foo")
    ∧ decodeTokenSpec "ip=10.0.0.1" = ("ip", PyVal.pystr "10.0.0.1") := by
  decide

/-- C8 (amended): For every option token in a parsed command, a token of
the form `key=value` hands the value to Python `eval`: boolean and `None`
literals, numeric literals (with optional sign, decimal point, and
exponent), and quoted string literals decode to themselves, and a name
visible in `eval`'s enclosing scope decodes to the object bound to it;
but a value that is an identifier outside that scope, or a dotted
numeral no Python accepts (such as an IP address), makes decoding fail
with an evaluation error instead of being left as the original string —
decoding is not total; a token with no `=` (or with nothing after it)
becomes a boolean option set to true. -/
theorem option_token_decoding (t k v : String)
    (hp : partitionEq t = (k, v)) :
    (v = "" → decodeToken t = some (k, PyVal.pybool true))
    ∧ (v = "True" → decodeToken t = some (k, PyVal.pybool true))
    ∧ (v = "False" → decodeToken t = some (k, PyVal.pybool false))
    ∧ (v = "None" → decodeToken t = some (k, PyVal.pynone))
    ∧ (isNumLit v = true → decodeToken t = some (k, PyVal.pynum v))
    ∧ (¬ v = "" → ¬ v = "True" → ¬ v = "False" → ¬ v = "None" →
       isNumLit v = false → isQuoted v = true →
       decodeToken t = some (k, PyVal.pystr (unquote v)))
    ∧ (¬ v = "" → ¬ v = "True" → ¬ v = "False" → ¬ v = "None" →
       isNumLit v = false → isQuoted v = false →
       scopeNames.contains v = true → ¬ v = "val" →
       decodeToken t = some (k, PyVal.pyobj v))
    ∧ (¬ v = "" → ¬ v = "True" → ¬ v = "False" → ¬ v = "None" →
       isNumLit v = false → isQuoted v = false →
       scopeNames.contains v = false →
       (isIdent v || isBadDotted v) = true →
       decodeToken t = none) := by
  refine ⟨?_, ?_, ?_, ?_, ?_, ?_, ?_, ?_⟩
  · intro h
    subst h
    simp [decodeToken, hp]
  · intro h
    subst h
    simp [decodeToken, hp, pyEval]
  · intro h
    subst h
    simp [decodeToken, hp, pyEval]
  · intro h
    subst h
    simp [decodeToken, hp, pyEval]
  · intro hnum
    have hne : ¬ v = "" := by
      intro h
      subst h
      exact absurd hnum (by decide)
    have ht : ¬ v = "True" := by
      intro h
      subst h
      exact absurd hnum (by decide)
    have hf : ¬ v = "False" := by
      intro h
      subst h
      exact absurd hnum (by decide)
    have hn0 : ¬ v = "None" := by
      intro h
      subst h
      exact absurd hnum (by decide)
    simp [decodeToken, hp, pyEval, hne, ht, hf, hn0, hnum]
  · intro hne ht hf hn0 hnum hq
    simp [decodeToken, hp, pyEval, hne, ht, hf, hn0, hnum, hq]
  · intro hne ht hf hn0 hnum hq hsc hval
    have hm : v ∈ scopeNames := by simpa using hsc
    simp [decodeToken, hp, pyEval, hne, ht, hf, hn0, hnum, hq, hm]
  · intro hne ht hf hn0 hnum hq hsc hcls
    have hm : ¬ v ∈ scopeNames := by simpa using hsc
    simp [decodeToken, hp, pyEval, hne, ht, hf, hn0, hnum, hq, hm]

/-- Witness for C8 (amended) at the token `x=5`. -/
theorem option_token_decoding_witness :
    partitionEq "x=5" = ("x", "5")
    ∧ (("5" : String) = "" → decodeToken "x=5" = some ("x", PyVal.pybool true))
    ∧ (("5" : String) = "True" → decodeToken "x=5"
        = some ("x", PyVal.pybool true))
    ∧ (("5" : String) = "False" → decodeToken "x=5"
        = some ("x", PyVal.pybool false))
    ∧ (("5" : String) = "None" → decodeToken "x=5" = some ("x", PyVal.pynone))
    ∧ (isNumLit "5" = true → decodeToken "x=5" = some ("x", PyVal.pynum "5"))
    ∧ (¬ ("5" : String) = "" → ¬ ("5" : String) = "True" →
       ¬ ("5" : String) = "False" → ¬ ("5" : String) = "None" →
       isNumLit "5" = false → isQuoted "5" = true →
       decodeToken "x=5" = some ("x", PyVal.pystr (unquote "5")))
    ∧ (¬ ("5" : String) = "" → ¬ ("5" : String) = "True" →
       ¬ ("5" : String) = "False" → ¬ ("5" : String) = "None" →
       isNumLit "5" = false → isQuoted "5" = false →
       scopeNames.contains "5" = true → ¬ ("5" : String) = "val" →
       decodeToken "x=5" = some ("x", PyVal.pyobj "5"))
    ∧ (¬ ("5" : String) = "" → ¬ ("5" : String) = "True" →
       ¬ ("5" : String) = "False" → ¬ ("5" : String) = "None" →
       isNumLit "5" = false → isQuoted "5" = false →
       scopeNames.contains "5" = false →
       (isIdent "5" || isBadDotted "5") = true →
       decodeToken "x=5" = none) :=
  ⟨by decide, option_token_decoding "x=5" "x" "5" (by decide)⟩

/-- C10: For every state and every command `del link <name1> <name2>
[opt=val ...]` whose option tokens all decode, the dispatcher invokes link
deletion with `all = true` and without the parsed options (the result is
exactly `_del_link(name1, name2)` with its default delete-all mode, for
any decoded `param`), so with both names registered every link between the
two named nodes is destroyed — shown on the two-parallel-link family,
whose media all go down regardless of the options given. -/
theorem do_del_link_deletes_all (s : NetState) (a b : String)
    (ka kb : NodeKind) (opts : List String)
    (param : List (String × PyVal)) (rf : Bool)
    (hopts : buildParam opts [] = some param) (hab : ¬ a = b) :
    doDel s ("link" :: a :: b :: opts) rf = (delLink s a b true, none)
    ∧ (doDel (mkParallelState a b ka kb) ("link" :: a :: b :: opts)
        rf).1.media = [] := by
  have hdisp : ∀ st : NetState,
      doDel st ("link" :: a :: b :: opts) rf = (delLink st a b true, none) := by
    intro st
    have h2 : ¬ (opts.length + 1 + 1 + 1 < 2) := by omega
    have h3 : ¬ (opts.length + 1 + 1 + 1 < 3) := by omega
    simp [doDel, parseArgsTokens, validTypes, hopts, h2, h3]
  refine ⟨hdisp s, ?_⟩
  rw [hdisp (mkParallelState a b ka kb)]
  simp [delLink, mkParallelState, checkPair, delLinkScan, intfListOf,
        intfLinkOf, intfOwner, intfNameOf, deleteLink, nodeDeattachIntf,
        alookup, aset, aerase, lremove, hab, Ne.symm hab,
        intfName_zero_one, intfName_one_zero]

/-- Witness for C10 at a concrete pair with an `intf1=` selector option,
which is parsed and then discarded. -/
theorem do_del_link_deletes_all_witness :
    buildParam ["intf1=1"] [] = some [("intf1", PyVal.pynum "1")]
    ∧ (¬ ("h5" : String) = "s5")
    ∧ (doDel (mkSingleState "x" NodeKind.host)
        ("link" :: "h5" :: "s5" :: ["intf1=1"]) false
        = (delLink (mkSingleState "x" NodeKind.host) "h5" "s5" true, none)
       ∧ (doDel (mkParallelState "h5" "s5" NodeKind.host NodeKind.switch)
           ("link" :: "h5" :: "s5" :: ["intf1=1"]) false).1.media = []) :=
  ⟨by decide, by decide,
   do_del_link_deletes_all (mkSingleState "x" NodeKind.host) "h5" "s5"
     NodeKind.host NodeKind.switch ["intf1=1"] [("intf1", PyVal.pynum "1")]
     false (by decide) (by decide)⟩

end DynNet
